import Mathlib

/-!
Shallow embedding of two Solana programs — `blueshift_escrow` and
`blueshift_native_amm` — written against the `pinocchio` runtime crate.
Machine integers (`u8`, `u16`, `u64`) are embedded as `Nat` with explicit
byte decomposition where the source stores raw little-endian bytes;
`i64` values are embedded as `Int` via two's complement decoding.
Public keys (`Pubkey`, `[u8; 32]`) are byte lists compared for equality;
program-derived-address computation (`find_program_address`,
`create_program_address`) is an external runtime primitive and enters the
embedding as an explicit function parameter.  Fallible Rust functions
returning `Result<_, ProgramError>` become `Except ProgramError _`.
-/

deriving instance DecidableEq for Except

namespace Blueshift

/-- Model of `solana_program::program_error::ProgramError` — the variants used by the
two programs. -/
inductive ProgramError where
  | NotEnoughAccountKeys
  | InvalidAccountData
  | InvalidAccountOwner
  | InvalidInstructionData
  | InvalidArgument
  | MissingRequiredSignature
  | InvalidSeeds
  | Custom (code : Nat)
  deriving DecidableEq, Repr

/-- A 32-byte public key, embedded as its byte list. -/
abbrev Pubkey := List Nat

/-- Little-endian decoding of a byte list into a natural number
(`uN::from_le_bytes`). -/
def fromLeBytes (b : List Nat) : Nat :=
  b.foldr (fun byte acc => byte + 256 * acc) 0

/-- Model of `u16::to_le_bytes` — two little-endian bytes. -/
def u16ToLeBytes (n : Nat) : List Nat :=
  [n % 256, n / 256 % 256]

/-- Model of `u64::to_le_bytes` — eight little-endian bytes. -/
def u64ToLeBytes (n : Nat) : List Nat :=
  [n % 256, n / 256 % 256, n / 256 ^ 2 % 256, n / 256 ^ 3 % 256,
   n / 256 ^ 4 % 256, n / 256 ^ 5 % 256, n / 256 ^ 6 % 256, n / 256 ^ 7 % 256]

/-- Model of `i64::from_le_bytes` — two's complement decoding of eight bytes. -/
def i64FromLeBytes (b : List Nat) : Int :=
  let n := fromLeBytes b
  if n < 2 ^ 63 then (n : Int) else (n : Int) - 2 ^ 64

/-- A ledger account as the handlers observe it (`pinocchio`'s
`AccountInfo`): address, signer flag, owning program, lamports, raw data. -/
structure AccountInfo where
  key : Pubkey
  is_signer : Bool
  owner : Pubkey
  lamports : Nat
  data : List Nat
  deriving DecidableEq, Repr

namespace Amm

/-- Model of `blueshift_native_amm::state::AmmState` (`#[repr(u8)]`). -/
inductive AmmState where
  | Uninitialized
  | Initialized
  | Disabled
  | WithdrawOnly
  deriving DecidableEq, Repr

/-- The `as u8` cast of `AmmState` (explicit discriminants 0..3). -/
def AmmState.toU8 : AmmState → Nat
  | .Uninitialized => 0
  | .Initialized => 1
  | .Disabled => 2
  | .WithdrawOnly => 3

/-- Model of `blueshift_native_amm::state::Config` (`#[repr(C)]`).  The source keeps
`seed`, `fee` and `config_bump` as raw little-endian byte arrays; the
embedding mirrors that so the getters perform the same decoding. -/
structure Config where
  state : Nat
  seed_bytes : List Nat
  authority : Pubkey
  mint_x : Pubkey
  mint_y : Pubkey
  fee_bytes : List Nat
  config_bump : Nat
  deriving DecidableEq, Repr

/-- Model of `Config::LEN` (1 + 8 + 32 + 32 + 32 + 2 + 1 bytes). -/
def Config.LEN : Nat := 108

/-- Model of `Config::from_bytes_unchecked` — reinterpret 108 raw bytes as a
`Config` record at the `#[repr(C)]` field offsets. -/
def Config.from_bytes (b : List Nat) : Config :=
  { state := b.getD 0 0
    seed_bytes := (b.drop 1).take 8
    authority := (b.drop 9).take 32
    mint_x := (b.drop 41).take 32
    mint_y := (b.drop 73).take 32
    fee_bytes := (b.drop 105).take 2
    config_bump := b.getD 107 0 }

/-- Model of `Config::load` — length and owner checks, then the raw reinterpretation.
`program_id` stands for the AMM program's `crate::ID`. -/
def Config.load (program_id : Pubkey) (account : AccountInfo) :
    Except ProgramError Config :=
  if account.data.length ≠ Config.LEN then
    .error .InvalidAccountData
  else if account.owner ≠ program_id then
    .error .InvalidAccountOwner
  else
    .ok (Config.from_bytes account.data)

/-- Model of `Config::seed` getter (`u64::from_le_bytes`). -/
def Config.seed (c : Config) : Nat := fromLeBytes c.seed_bytes

/-- Model of `Config::fee` getter (`u16::from_le_bytes`). -/
def Config.fee (c : Config) : Nat := fromLeBytes c.fee_bytes

/-- Model of `Config::set_state` — rejects any `state ≥ AmmState::WithdrawOnly as u8`
with `InvalidAccountData`, otherwise stores the byte. -/
def Config.set_state (c : Config) (state : Nat) : Except ProgramError Config :=
  if AmmState.WithdrawOnly.toU8 ≤ state then
    .error .InvalidAccountData
  else
    .ok { c with state := state }

/-- Model of `Config::set_seed`. -/
def Config.set_seed (c : Config) (seed : Nat) : Config :=
  { c with seed_bytes := u64ToLeBytes seed }

/-- Model of `Config::set_authority`. -/
def Config.set_authority (c : Config) (authority : Pubkey) : Config :=
  { c with authority := authority }

/-- Model of `Config::set_mint_x`. -/
def Config.set_mint_x (c : Config) (mint_x : Pubkey) : Config :=
  { c with mint_x := mint_x }

/-- Model of `Config::set_mint_y`. -/
def Config.set_mint_y (c : Config) (mint_y : Pubkey) : Config :=
  { c with mint_y := mint_y }

/-- Model of `Config::set_fee` — rejects `fee ≥ 10_000` with `InvalidAccountData`,
otherwise stores the two little-endian bytes. -/
def Config.set_fee (c : Config) (fee : Nat) : Except ProgramError Config :=
  if 10000 ≤ fee then
    .error .InvalidAccountData
  else
    .ok { c with fee_bytes := u16ToLeBytes fee }

/-- Model of `Config::set_config_bump`. -/
def Config.set_config_bump (c : Config) (config_bump : Nat) : Config :=
  { c with config_bump := config_bump }

/-- Model of `Config::set_inner` — sets `state = Initialized`, then every field in
declaration order; propagates the `set_state`/`set_fee` failures. -/
def Config.set_inner (c : Config) (seed : Nat) (authority : Pubkey)
    (mint_x : Pubkey) (mint_y : Pubkey) (fee : Nat) (config_bump : Nat) :
    Except ProgramError Config :=
  match c.set_state AmmState.Initialized.toU8 with
  | .error e => .error e
  | .ok c =>
    match ((((c.set_seed seed).set_authority authority).set_mint_x
        mint_x).set_mint_y mint_y).set_fee fee with
    | .error e => .error e
    | .ok c => .ok (c.set_config_bump config_bump)

/-- Model of `deposit.rs`: the parsed `DepositAccounts` bindings. -/
structure DepositAccounts where
  user : AccountInfo
  mint_lp : AccountInfo
  vault_x : AccountInfo
  vault_y : AccountInfo
  user_x_ata : AccountInfo
  user_y_ata : AccountInfo
  user_lp_ata : AccountInfo
  config : AccountInfo
  token_program : AccountInfo
  deriving DecidableEq, Repr

/-- Model of `DepositAccounts::try_from` — the slice pattern
`[user, mint_lp, vault_x, vault_y, user_x_ata, user_y_ata, user_lp_ata,
config, token_program, ..]` (nine leading bindings, trailing rest
ignored); anything shorter is `NotEnoughAccountKeys`. -/
def DepositAccounts.try_from : List AccountInfo → Except ProgramError DepositAccounts
  | user :: mint_lp :: vault_x :: vault_y :: user_x_ata :: user_y_ata ::
      user_lp_ata :: config :: token_program :: _ =>
    .ok { user, mint_lp, vault_x, vault_y, user_x_ata, user_y_ata,
          user_lp_ata, config, token_program }
  | _ => .error .NotEnoughAccountKeys

/-- Model of `withdraw.rs`: the parsed `WithdrawAccounts` bindings. -/
structure WithdrawAccounts where
  user : AccountInfo
  mint_lp : AccountInfo
  vault_x : AccountInfo
  vault_y : AccountInfo
  user_x_ata : AccountInfo
  user_y_ata : AccountInfo
  user_lp_ata : AccountInfo
  config : AccountInfo
  token_program : AccountInfo
  deriving DecidableEq, Repr

/-- Model of `WithdrawAccounts::try_from` — same nine-account leading pattern with a
trailing `..` rest. -/
def WithdrawAccounts.try_from : List AccountInfo → Except ProgramError WithdrawAccounts
  | user :: mint_lp :: vault_x :: vault_y :: user_x_ata :: user_y_ata ::
      user_lp_ata :: config :: token_program :: _ =>
    .ok { user, mint_lp, vault_x, vault_y, user_x_ata, user_y_ata,
          user_lp_ata, config, token_program }
  | _ => .error .NotEnoughAccountKeys

/-- Model of `swap.rs`: the parsed `SwapAccounts` bindings. -/
structure SwapAccounts where
  user : AccountInfo
  user_x_ata : AccountInfo
  user_y_ata : AccountInfo
  vault_x : AccountInfo
  vault_y : AccountInfo
  config : AccountInfo
  token_program : AccountInfo
  deriving DecidableEq, Repr

/-- Model of `SwapAccounts::try_from` — seven leading bindings, trailing `..` rest. -/
def SwapAccounts.try_from : List AccountInfo → Except ProgramError SwapAccounts
  | user :: user_x_ata :: user_y_ata :: vault_x :: vault_y :: config ::
      token_program :: _ =>
    .ok { user, user_x_ata, user_y_ata, vault_x, vault_y, config,
          token_program }
  | _ => .error .NotEnoughAccountKeys

/-- Model of `initialize.rs`: the parsed `InitializeAccounts` bindings. -/
structure InitializeAccounts where
  initializer : AccountInfo
  mint_lp : AccountInfo
  config : AccountInfo
  system_program : AccountInfo
  token_program : AccountInfo
  deriving DecidableEq, Repr

/-- Model of `InitializeAccounts::try_from` — five leading bindings, trailing `..`
rest. -/
def InitializeAccounts.try_from : List AccountInfo → Except ProgramError InitializeAccounts
  | initializer :: mint_lp :: config :: system_program :: token_program :: _ =>
    .ok { initializer, mint_lp, config, system_program, token_program }
  | _ => .error .NotEnoughAccountKeys

/-- Model of `deposit.rs`: `DepositInstructionData` (`#[repr(C, packed)]`, 32 bytes:
`amount: u64, max_x: u64, max_y: u64, expiration: i64`). -/
structure DepositInstructionData where
  amount : Nat
  max_x : Nat
  max_y : Nat
  expiration : Int
  deriving DecidableEq, Repr

/-- Model of `DepositInstructionData::try_from` — exact length 32, unaligned
little-endian field reads, zero-amount checks, then the ledger-clock
expiration check (`now` is `Clock::get()?.unix_timestamp`). -/
def DepositInstructionData.try_from (now : Int) (data : List Nat) :
    Except ProgramError DepositInstructionData :=
  if data.length ≠ 32 then
    .error .InvalidInstructionData
  else if fromLeBytes (data.take 8) = 0 ∨
      fromLeBytes ((data.drop 8).take 8) = 0 ∨
      fromLeBytes ((data.drop 16).take 8) = 0 then
    .error .InvalidInstructionData
  else if now > i64FromLeBytes ((data.drop 24).take 8) then
    .error .InvalidInstructionData
  else
    .ok { amount := fromLeBytes (data.take 8)
          max_x := fromLeBytes ((data.drop 8).take 8)
          max_y := fromLeBytes ((data.drop 16).take 8)
          expiration := i64FromLeBytes ((data.drop 24).take 8) }

/-- Model of `withdraw.rs`: `WithdrawInstructionData` (packed, 32 bytes:
`amount: u64, min_x: u64, min_y: u64, expiration: i64`). -/
structure WithdrawInstructionData where
  amount : Nat
  min_x : Nat
  min_y : Nat
  expiration : Int
  deriving DecidableEq, Repr

/-- Model of `WithdrawInstructionData::try_from` — exact length 32, zero check on
`amount` only, then the expiration check. -/
def WithdrawInstructionData.try_from (now : Int) (data : List Nat) :
    Except ProgramError WithdrawInstructionData :=
  if data.length ≠ 32 then
    .error .InvalidInstructionData
  else if fromLeBytes (data.take 8) = 0 then
    .error .InvalidInstructionData
  else if now > i64FromLeBytes ((data.drop 24).take 8) then
    .error .InvalidInstructionData
  else
    .ok { amount := fromLeBytes (data.take 8)
          min_x := fromLeBytes ((data.drop 8).take 8)
          min_y := fromLeBytes ((data.drop 16).take 8)
          expiration := i64FromLeBytes ((data.drop 24).take 8) }

/-- Model of `swap.rs`: `SwapInstructionData` (packed, 25 bytes: `is_x: u8` at
offset 0, `amount: u64` at 1, `min: u64` at 9, `expiration: i64` at 17). -/
structure SwapInstructionData where
  is_x : Nat
  amount : Nat
  min : Nat
  expiration : Int
  deriving DecidableEq, Repr

/-- Model of `SwapInstructionData::try_from` — exact length 25, zero checks on
`amount` and `min`, then the expiration check. -/
def SwapInstructionData.try_from (now : Int) (data : List Nat) :
    Except ProgramError SwapInstructionData :=
  if data.length ≠ 25 then
    .error .InvalidInstructionData
  else if fromLeBytes ((data.drop 1).take 8) = 0 ∨
      fromLeBytes ((data.drop 9).take 8) = 0 then
    .error .InvalidInstructionData
  else if now > i64FromLeBytes ((data.drop 17).take 8) then
    .error .InvalidInstructionData
  else
    .ok { is_x := data.getD 0 0
          amount := fromLeBytes ((data.drop 1).take 8)
          min := fromLeBytes ((data.drop 9).take 8)
          expiration := i64FromLeBytes ((data.drop 17).take 8) }

/-- Model of `constant_product_curve::LiquidityPair`. -/
inductive LiquidityPair where
  | X
  | Y
  deriving DecidableEq, Repr

/-- The result record of `ConstantProduct::swap`: actual input consumed
(`deposit`) and output produced after fee (`withdraw`). -/
structure SwapResult where
  deposit : Nat
  withdraw : Nat
  deriving DecidableEq, Repr

/-- Model of `Deposit::process`'s AMM-state guard:
`config.state() != AmmState::Initialized as u8`. -/
def Deposit.stateGuardRejects (state : Nat) : Bool :=
  state != AmmState.Initialized.toU8

/-- Model of `Withdraw::process`'s AMM-state guard:
`config.state() == Disabled || config.state() == Uninitialized`. -/
def Withdraw.stateGuardRejects (state : Nat) : Bool :=
  state == AmmState.Disabled.toU8 || state == AmmState.Uninitialized.toU8

/-- Model of `Swap::process`'s AMM-state guard:
`config.state() != AmmState::Initialized as u8`. -/
def Swap.stateGuardRejects (state : Nat) : Bool :=
  state != AmmState.Initialized.toU8

/-- Balance-moving effects of a successful `Deposit::process`: the two
user-authorized transfers into the vaults and the config-signed `MintTo`. -/
structure DepositEffects where
  transfer_x_amount : Nat
  transfer_y_amount : Nat
  mint_to_amount : Nat
  deriving DecidableEq, Repr

/-- Model of `Deposit::process`.  External collaborators enter as parameters:
`program_id` is `crate::ID`; `find_ata seeds…` is
`find_program_address([config, token_program, mint], ata_program).0`;
`xy_deposit_amounts_from_l` is the curve engine's
`ConstantProduct::xy_deposit_amounts_from_l (x, y, l, amount, precision)`;
`mint_lp_supply`/`vault_x_amount`/`vault_y_amount` are the values
deserialized live from the `mint_lp`, `vault_x`, `vault_y` token accounts. -/
def Deposit.process (program_id : Pubkey)
    (find_ata : Pubkey → Pubkey → Pubkey → Pubkey)
    (xy_deposit_amounts_from_l : Nat → Nat → Nat → Nat → Nat → Except Unit (Nat × Nat))
    (accounts : DepositAccounts)
    (mint_lp_supply vault_x_amount vault_y_amount : Nat)
    (instruction_data : DepositInstructionData) :
    Except ProgramError DepositEffects :=
  match Config.load program_id accounts.config with
  | .error e => .error e
  | .ok config =>
    if Deposit.stateGuardRejects config.state then
      .error .InvalidAccountData
    else if find_ata accounts.config.key accounts.token_program.key
        config.mint_x ≠ accounts.vault_x.key then
      .error .InvalidAccountData
    else if find_ata accounts.config.key accounts.token_program.key
        config.mint_y ≠ accounts.vault_y.key then
      .error .InvalidAccountData
    else
      let amounts :=
        if mint_lp_supply == 0 && vault_x_amount == 0 && vault_y_amount == 0 then
          .ok (instruction_data.max_x, instruction_data.max_y)
        else
          (xy_deposit_amounts_from_l vault_x_amount vault_y_amount
            mint_lp_supply instruction_data.amount 6).mapError
            (fun _ => ProgramError.InvalidArgument)
      match amounts with
      | .error e => .error e
      | .ok (x, y) =>
        if ¬ (x ≤ instruction_data.max_x ∧ y ≤ instruction_data.max_y) then
          .error .InvalidArgument
        else
          .ok { transfer_x_amount := x
                transfer_y_amount := y
                mint_to_amount := instruction_data.amount }

/-- Balance-moving effects of a successful `Withdraw::process`: the two
config-signed transfers out of the vaults and the user-authorized `Burn`
executed last. -/
structure WithdrawEffects where
  transfer_x_amount : Nat
  transfer_y_amount : Nat
  burn_amount : Nat
  deriving DecidableEq, Repr

/-- Model of `Withdraw::process`, with the same externalized collaborators as
`Deposit.process` (`xy_withdraw_amounts_from_l` is the curve engine's
proportional-withdraw computation). -/
def Withdraw.process (program_id : Pubkey)
    (find_ata : Pubkey → Pubkey → Pubkey → Pubkey)
    (xy_withdraw_amounts_from_l : Nat → Nat → Nat → Nat → Nat → Except Unit (Nat × Nat))
    (accounts : WithdrawAccounts)
    (mint_lp_supply vault_x_amount vault_y_amount : Nat)
    (instruction_data : WithdrawInstructionData) :
    Except ProgramError WithdrawEffects :=
  match Config.load program_id accounts.config with
  | .error e => .error e
  | .ok config =>
    if Withdraw.stateGuardRejects config.state then
      .error .InvalidAccountData
    else if find_ata accounts.config.key accounts.token_program.key
        config.mint_x ≠ accounts.vault_x.key then
      .error .InvalidAccountData
    else if find_ata accounts.config.key accounts.token_program.key
        config.mint_y ≠ accounts.vault_y.key then
      .error .InvalidAccountData
    else
      let amounts :=
        if mint_lp_supply == instruction_data.amount then
          .ok (vault_x_amount, vault_y_amount)
        else
          (xy_withdraw_amounts_from_l vault_x_amount vault_y_amount
            mint_lp_supply instruction_data.amount 6).mapError
            (fun _ => ProgramError.InvalidArgument)
      match amounts with
      | .error e => .error e
      | .ok (x, y) =>
        if ¬ (x ≥ instruction_data.min_x ∧ y ≥ instruction_data.min_y) then
          .error .InvalidArgument
        else
          .ok { transfer_x_amount := x
                transfer_y_amount := y
                burn_amount := instruction_data.amount }

/-- Balance-moving effects of a successful `Swap::process`: `is_x` keys the
two transfer directions; `deposit_amount` moves from the user into the
input-side vault, `withdraw_amount` moves from the opposite vault to the
user under the config's derived signature. -/
structure SwapEffects where
  is_x : Bool
  deposit_amount : Nat
  withdraw_amount : Nat
  deriving DecidableEq, Repr

/-- Model of `Swap::process`.  The external curve engine enters as two parameters
over an arbitrary curve-state type `C`: `cp_init x y l fee precision`
models `ConstantProduct::init` (note the source passes
`vault_x_account.amount()` as both `x` and the third argument), and
`cp_swap curve pair amount min` models `ConstantProduct::swap`; both error
sides are collapsed to `ProgramError::Custom 1` exactly as the source's
`map_err` does. -/
def Swap.process {C : Type} (program_id : Pubkey)
    (find_ata : Pubkey → Pubkey → Pubkey → Pubkey)
    (cp_init : Nat → Nat → Nat → Nat → Option Nat → Except Unit C)
    (cp_swap : C → LiquidityPair → Nat → Nat → Except Unit SwapResult)
    (accounts : SwapAccounts)
    (vault_x_amount vault_y_amount : Nat)
    (instruction_data : SwapInstructionData) :
    Except ProgramError SwapEffects :=
  match Config.load program_id accounts.config with
  | .error e => .error e
  | .ok config =>
    let is_x := instruction_data.is_x != 0
    if Swap.stateGuardRejects config.state then
      .error .InvalidAccountData
    else if find_ata accounts.config.key accounts.token_program.key
        config.mint_x ≠ accounts.vault_x.key then
      .error .InvalidAccountData
    else if find_ata accounts.config.key accounts.token_program.key
        config.mint_y ≠ accounts.vault_y.key then
      .error .InvalidAccountData
    else
      match (cp_init vault_x_amount vault_y_amount vault_x_amount config.fee
          none).mapError (fun _ => ProgramError.Custom 1) with
      | .error e => .error e
      | .ok curve =>
        let p := if is_x then LiquidityPair.X else LiquidityPair.Y
        match (cp_swap curve p instruction_data.amount
            instruction_data.min).mapError (fun _ => ProgramError.Custom 1) with
        | .error e => .error e
        | .ok swap_result =>
          if swap_result.deposit == 0 || swap_result.withdraw == 0 then
            .error .InvalidArgument
          else
            .ok { is_x := is_x
                  deposit_amount := swap_result.deposit
                  withdraw_amount := swap_result.withdraw }

end Amm

namespace Escrow

/-- Model of `blueshift_escrow::state::Escrow` (`#[repr(C)]`): `seed: u64`,
`maker/mint_a/mint_b: Pubkey`, `receive: u64`, `bump: [u8; 1]`. -/
structure EscrowState where
  seed : Nat
  maker : Pubkey
  mint_a : Pubkey
  mint_b : Pubkey
  receive : Nat
  bump : Nat
  deriving DecidableEq, Repr

/-- Model of `Escrow::LEN` — the declared sum of field widths
(8 + 32 + 32 + 32 + 8 + 1). -/
def EscrowState.LEN : Nat := 113

/-- Model of `Escrow::load` — exact-length check, then the in-place reinterpretation
of the bytes at the `#[repr(C)]` field offsets (0, 8, 40, 72, 104, 112). -/
def EscrowState.load (bytes : List Nat) : Except ProgramError EscrowState :=
  if bytes.length ≠ EscrowState.LEN then
    .error .InvalidAccountData
  else
    .ok { seed := fromLeBytes (bytes.take 8)
          maker := (bytes.drop 8).take 32
          mint_a := (bytes.drop 40).take 32
          mint_b := (bytes.drop 72).take 32
          receive := fromLeBytes ((bytes.drop 104).take 8)
          bump := bytes.getD 112 0 }

/-- Model of `helpers.rs` `SignerAccount::check` — `MissingRequiredSignature` unless
the account is marked as a transaction signer. -/
def SignerAccount.check (account : AccountInfo) : Except ProgramError Unit :=
  if ¬ account.is_signer then
    .error .MissingRequiredSignature
  else
    .ok ()

/-- Model of `helpers.rs` `MintInterface::check` — `InvalidAccountOwner` unless the
account is owned by the token program (`pinocchio_token::ID`, passed in as
`token_id`). -/
def MintInterface.check (token_id : Pubkey) (account : AccountInfo) :
    Except ProgramError Unit :=
  if account.owner ≠ token_id then
    .error .InvalidAccountOwner
  else
    .ok ()

/-- Model of `helpers.rs` `ProgramAccount::check` — `InvalidAccountOwner` unless the
account is owned by this escrow program (`crate::ID`, passed in as
`program_id`). -/
def ProgramAccount.check (program_id : Pubkey) (account : AccountInfo) :
    Except ProgramError Unit :=
  if account.owner ≠ program_id then
    .error .InvalidAccountOwner
  else
    .ok ()

/-- Model of `helpers.rs` `AssociatedTokenAccount::check` — owner-program check
first (`InvalidAccountOwner`), then the recomputed associated address
(`InvalidAccountData` on mismatch).  `find_ata owner token_program mint`
models `find_program_address([owner, token_program, mint], ata_program).0`. -/
def AssociatedTokenAccount.check (find_ata : Pubkey → Pubkey → Pubkey → Pubkey)
    (ata owner mint token_program : AccountInfo) : Except ProgramError Unit :=
  if ata.owner ≠ token_program.key then
    .error .InvalidAccountOwner
  else if ata.key ≠ find_ata owner.key token_program.key mint.key then
    .error .InvalidAccountData
  else
    .ok ()

/-- Model of `helpers.rs` `ProgramAccount::close account destination`: move every
lamport of `account` to `destination`, zero every byte of `account`'s
data, and assign `account` to the system program (`pinocchio_system::ID`,
passed in as `system_id`).  Returns the two updated accounts. -/
def ProgramAccount.close (system_id : Pubkey)
    (account destination : AccountInfo) : AccountInfo × AccountInfo :=
  ({ account with
      lamports := 0
      data := account.data.map (fun _ => 0)
      owner := system_id },
   { destination with lamports := destination.lamports + account.lamports })

/-- Model of `refund.rs`: the parsed `RefundAccounts` bindings. -/
structure RefundAccounts where
  maker : AccountInfo
  escrow : AccountInfo
  mint_a : AccountInfo
  vault : AccountInfo
  maker_ata_a : AccountInfo
  system_program : AccountInfo
  token_program : AccountInfo
  deriving DecidableEq, Repr

/-- Model of `RefundAccounts::try_from` — the slice pattern
`[maker, escrow, mint_a, vault, maker_ata_a, system_program,
token_program, _]` matches **exactly eight** accounts (seven named plus
one ignored trailing binder, no `..` rest); any other length is
`NotEnoughAccountKeys`.  Then the four basic account checks run in
source order. -/
def RefundAccounts.try_from (token_id program_id : Pubkey)
    (find_ata : Pubkey → Pubkey → Pubkey → Pubkey) :
    List AccountInfo → Except ProgramError RefundAccounts
  | [maker, escrow, mint_a, vault, maker_ata_a, system_program,
     token_program, _ignored] =>
    match SignerAccount.check maker with
    | .error e => .error e
    | .ok _ =>
      match ProgramAccount.check program_id escrow with
      | .error e => .error e
      | .ok _ =>
        match MintInterface.check token_id mint_a with
        | .error e => .error e
        | .ok _ =>
          match AssociatedTokenAccount.check find_ata vault escrow mint_a
              token_program with
          | .error e => .error e
          | .ok _ =>
            .ok { maker, escrow, mint_a, vault, maker_ata_a, system_program,
                  token_program }
  | _ => .error .NotEnoughAccountKeys

/-- Effects of a successful `Refund::process`: the vault-to-maker transfer
amount, the token-program `CloseAccount` on the vault (destination
`maker`), and the final contents of the escrow and maker accounts after
`ProgramAccount::close`. -/
structure RefundEffects where
  transfer_amount : Nat
  vault_closed : Bool
  escrow_account : AccountInfo
  maker_account : AccountInfo
  deriving DecidableEq, Repr

/-- Model of `Refund::process`.  `create_program_address maker seed_le bump` models
the runtime's `create_program_address(["escrow", maker, seed_le, bump],
crate::ID)`; `system_id` is `pinocchio_system::ID`; `vault_amount` is the
balance deserialized live from the vault token account
(`TokenAccount::from_account_info(vault)?.amount()`). -/
def Refund.process
    (create_program_address : Pubkey → List Nat → List Nat → Except ProgramError Pubkey)
    (system_id : Pubkey) (accounts : RefundAccounts) (vault_amount : Nat) :
    Except ProgramError RefundEffects :=
  match EscrowState.load accounts.escrow.data with
  | .error e => .error e
  | .ok escrow =>
    match create_program_address accounts.maker.key
        (u64ToLeBytes escrow.seed) [escrow.bump] with
    | .error e => .error e
    | .ok escrow_key =>
      if escrow_key ≠ accounts.escrow.key then
        .error .InvalidAccountOwner
      else if accounts.maker.key ≠ escrow.maker then
        .error .InvalidAccountData
      else
        let amount := vault_amount
        let closed := ProgramAccount.close system_id accounts.escrow accounts.maker
        .ok { transfer_amount := amount
              vault_closed := true
              escrow_account := closed.1
              maker_account := closed.2 }

end Escrow

end Blueshift

open Blueshift Blueshift.Amm Blueshift.Escrow

/-! ### Concrete inputs used by closed theorems and witnesses -/

/-- A placeholder account keyed by a single byte. -/
def dummyAccount (k : Nat) : AccountInfo :=
  { key := [k], is_signer := false, owner := [], lamports := 0, data := [] }

/-- Ten placeholder accounts. -/
def tenAccounts : List AccountInfo := (List.range 10).map dummyAccount

/-- The AMM program id used in concrete scenarios. -/
def ammProgId : Pubkey := [7]

/-- The 108 config bytes with `state = Initialized` and all other fields zero. -/
def configBytesInit : List Nat := 1 :: List.replicate 107 0

/-- The 108 config bytes with `state = Disabled`. -/
def configBytesDisabled : List Nat := 2 :: List.replicate 107 0

/-- The decoded all-zero `Initialized` config. -/
def configA : Config := Config.from_bytes configBytesInit

/-- A config account holding `configBytesInit`, owned by the AMM program. -/
def configAccountInit : AccountInfo :=
  { key := [3], is_signer := false, owner := ammProgId, lamports := 0,
    data := configBytesInit }

/-- A config account holding `configBytesDisabled`. -/
def configAccountDisabled : AccountInfo :=
  { key := [3], is_signer := false, owner := ammProgId, lamports := 0,
    data := configBytesDisabled }

/-- The address every concrete derivation returns. -/
def vaultKey : Pubkey := [9]

/-- A constant associated-address derivation. -/
def fataConst : Pubkey → Pubkey → Pubkey → Pubkey := fun _ _ _ => vaultKey

/-- A vault account sitting at the derived address. -/
def vaultAccount : AccountInfo :=
  { key := vaultKey, is_signer := false, owner := [], lamports := 0, data := [] }

/-- A curve engine that always reports an error (the processes under test
must never consult it). -/
def curveFail : Nat → Nat → Nat → Nat → Nat → Except Unit (Nat × Nat) :=
  fun _ _ _ _ _ => .error ()

/-- Deposit accounts: derivation-matching vaults, `Initialized` config. -/
def depositAccountsA : DepositAccounts :=
  ⟨dummyAccount 0, dummyAccount 1, vaultAccount, vaultAccount,
   dummyAccount 5, dummyAccount 6, dummyAccount 7, configAccountInit,
   dummyAccount 8⟩

/-- Deposit accounts with the `Disabled` config. -/
def depositAccountsDisabled : DepositAccounts :=
  ⟨dummyAccount 0, dummyAccount 1, vaultAccount, vaultAccount,
   dummyAccount 5, dummyAccount 6, dummyAccount 7, configAccountDisabled,
   dummyAccount 8⟩

/-- Withdraw accounts: derivation-matching vaults, `Initialized` config. -/
def withdrawAccountsA : WithdrawAccounts :=
  ⟨dummyAccount 0, dummyAccount 1, vaultAccount, vaultAccount,
   dummyAccount 5, dummyAccount 6, dummyAccount 7, configAccountInit,
   dummyAccount 8⟩

/-- Withdraw accounts with the `Disabled` config. -/
def withdrawAccountsDisabled : WithdrawAccounts :=
  ⟨dummyAccount 0, dummyAccount 1, vaultAccount, vaultAccount,
   dummyAccount 5, dummyAccount 6, dummyAccount 7, configAccountDisabled,
   dummyAccount 8⟩

/-- Swap accounts with the `Disabled` config. -/
def swapAccountsDisabled : SwapAccounts :=
  ⟨dummyAccount 0, dummyAccount 5, dummyAccount 6, vaultAccount,
   vaultAccount, configAccountDisabled, dummyAccount 8⟩

/-- A deposit payload: request 5 shares, caps 100/200, expiration 50. -/
def depositInstrA : DepositInstructionData := ⟨5, 100, 200, 50⟩

/-- A withdraw payload burning 30 shares with zero slippage floors. -/
def withdrawInstrA : WithdrawInstructionData := ⟨30, 0, 0, 50⟩

/-- The escrow program id used in concrete scenarios. -/
def escrowProgId : Pubkey := [11]

/-- The token program id used in concrete scenarios. -/
def tokenProgId : Pubkey := [13]

/-- The system program id used in concrete scenarios. -/
def sysProgId : Pubkey := [14]

/-- A 32-byte all-zero maker key. -/
def makerKey : Pubkey := List.replicate 32 0

/-- The escrow account's address in concrete scenarios. -/
def escrowKeyA : Pubkey := [5]

/-- The 113 escrow record bytes, all zero: `seed = 0`, `maker = makerKey`,
zero mints, `receive = 0`, `bump = 0`. -/
def escrowDataA : List Nat := List.replicate 113 0

/-- The signing maker account (its key matches the stored maker). -/
def makerAccountA : AccountInfo :=
  { key := makerKey, is_signer := true, owner := [], lamports := 7,
    data := [] }

/-- A signing account whose key differs from the stored maker. -/
def makerAccountB : AccountInfo :=
  { key := List.replicate 32 1, is_signer := true, owner := [], lamports := 7,
    data := [] }

/-- The escrow account: owned by the escrow program, 10 lamports of rent,
holding `escrowDataA`. -/
def escrowAccountA : AccountInfo :=
  { key := escrowKeyA, is_signer := false, owner := escrowProgId,
    lamports := 10, data := escrowDataA }

/-- The token-program account entry. -/
def tokenProgAccount : AccountInfo :=
  { key := tokenProgId, is_signer := false, owner := [], lamports := 0,
    data := [] }

/-- A mint account owned by the token program. -/
def mintAAccount : AccountInfo :=
  { key := [15], is_signer := false, owner := tokenProgId, lamports := 0,
    data := [] }

/-- The escrow vault: sits at the derived associated address and is owned
by the token program. -/
def escrowVaultAccount : AccountInfo :=
  { key := vaultKey, is_signer := false, owner := tokenProgId, lamports := 0,
    data := [] }

/-- Refund accounts where every guard and check passes. -/
def refundAccountsA : RefundAccounts :=
  ⟨makerAccountA, escrowAccountA, mintAAccount, escrowVaultAccount,
   dummyAccount 4, dummyAccount 5, tokenProgAccount⟩

/-- Refund accounts whose signer is not the stored maker. -/
def refundAccountsB : RefundAccounts :=
  ⟨makerAccountB, escrowAccountA, mintAAccount, escrowVaultAccount,
   dummyAccount 4, dummyAccount 5, tokenProgAccount⟩

/-- An eight-entry caller account list for `Refund` that passes all the
basic account checks. -/
def refundList8 : List AccountInfo :=
  [makerAccountA, escrowAccountA, mintAAccount, escrowVaultAccount,
   dummyAccount 4, dummyAccount 5, tokenProgAccount, dummyAccount 6]

/-- A derivation that returns the concrete escrow address. -/
def cpaOk : Pubkey → List Nat → List Nat → Except ProgramError Pubkey :=
  fun _ _ _ => .ok escrowKeyA

/-- A derivation that returns an address different from the passed escrow
account's. -/
def cpaBad : Pubkey → List Nat → List Nat → Except ProgramError Pubkey :=
  fun _ _ _ => .ok [99]

/-! ### Theorems -/

/-- Claim C1 (code bug): `Config::set_state` stores 0, 1 and 2, but rejects
`AmmState::WithdrawOnly = 3` itself with `InvalidAccountData`, because its
guard is `state >= WithdrawOnly as u8` rather than a strict comparison;
yet `Withdraw::process`'s own state guard treats 3 as a permitted state,
so the `WithdrawOnly` lifecycle stage the spec describes can never be
reached through `set_state`.  This refutes the claim that
`set_state(WithdrawOnly)` succeeds. -/
theorem C1_set_state_rejects_withdraw_only :
    Config.set_state configA 0 = .ok { configA with state := 0 } ∧
    Config.set_state configA 1 = .ok { configA with state := 1 } ∧
    Config.set_state configA 2 = .ok { configA with state := 2 } ∧
    Config.set_state configA 3 = .error .InvalidAccountData ∧
    Config.set_state configA 4 = .error .InvalidAccountData ∧
    Withdraw.stateGuardRejects AmmState.WithdrawOnly.toU8 = false := by
  decide

/-- Claim C9: `Config::set_fee` fails with `InvalidAccountData` exactly when
`fee ≥ 10_000`; any smaller fee is stored as two little-endian bytes and
read back unchanged by the `fee()` getter; `Config::set_inner` (the
`Initialize` path) propagates exactly the same bound and round-trip. -/
theorem C9_set_fee_bound_and_roundtrip : ∀ (c : Config) (fee : Nat),
    (Config.set_fee c fee = .error .InvalidAccountData ↔ 10000 ≤ fee) ∧
    (fee < 10000 → (Config.set_fee c fee).map Config.fee = .ok fee) ∧
    (∀ seed authority mint_x mint_y config_bump,
      (Config.set_inner c seed authority mint_x mint_y fee config_bump =
        .error .InvalidAccountData ↔ 10000 ≤ fee) ∧
      (fee < 10000 →
        (Config.set_inner c seed authority mint_x mint_y fee
          config_bump).map Config.fee = .ok fee)) := by
  intro c fee
  refine ⟨?_, ?_, ?_⟩
  · unfold Config.set_fee
    split_ifs with h <;> simp [h]
  · intro h
    have h10 : ¬ 10000 ≤ fee := by omega
    simp [Config.set_fee, h10, Except.map, Config.fee, u16ToLeBytes,
      fromLeBytes]
    omega
  · intro seed authority mint_x mint_y config_bump
    constructor
    · by_cases h : 10000 ≤ fee
      · simp [Config.set_inner, Config.set_state, Config.set_fee,
          AmmState.toU8, h]
      · simp [Config.set_inner, Config.set_state, Config.set_fee,
          AmmState.toU8, h]
    · intro h
      have h10 : ¬ 10000 ≤ fee := by omega
      simp [Config.set_inner, Config.set_state, Config.set_fee,
        AmmState.toU8, h10, Except.map, Config.fee, Config.set_config_bump,
        Config.set_seed, Config.set_authority, Config.set_mint_x,
        Config.set_mint_y, u16ToLeBytes, fromLeBytes]
      omega

/-- Witness for C9 at `fee = 10_000` (rejected) and `fee = 9_999`
(stored and read back unchanged, both via `set_fee` and `set_inner`). -/
theorem C9_witness :
    Config.set_fee configA 10000 = .error .InvalidAccountData ∧
    (Config.set_fee configA 9999).map Config.fee = .ok 9999 ∧
    (Config.set_inner configA 0 [] [] [] 9999 0).map Config.fee = .ok 9999 :=
  ⟨(C9_set_fee_bound_and_roundtrip configA 10000).1.mpr (by decide),
   (C9_set_fee_bound_and_roundtrip configA 9999).2.1 (by decide),
   ((C9_set_fee_bound_and_roundtrip configA 9999).2.2 0 [] [] [] 0).2
     (by decide)⟩

/-- Claim C7: The three state guards, over every `u8` state value:
`Withdraw` rejects exactly `{Disabled = 2, Uninitialized = 0}` (so both
`Initialized = 1` and `WithdrawOnly = 3` pass), `Deposit` and `Swap`
reject exactly the states other than `Initialized = 1`; whenever the
`Deposit`/`Swap` guard passes the `Withdraw` guard passes too; and in each
process a loaded config whose state the guard rejects fails with
`InvalidAccountData`. -/
theorem C7_state_guards :
    (∀ s : Nat,
      (Withdraw.stateGuardRejects s = true ↔ (s = 2 ∨ s = 0)) ∧
      (Deposit.stateGuardRejects s = true ↔ s ≠ 1) ∧
      (Swap.stateGuardRejects s = true ↔ s ≠ 1) ∧
      (Deposit.stateGuardRejects s = false →
        Withdraw.stateGuardRejects s = false)) ∧
    (∀ pid fata curve accounts supply vx vy instr cfg,
      Config.load pid accounts.config = .ok cfg →
      Withdraw.stateGuardRejects cfg.state = true →
      Withdraw.process pid fata curve accounts supply vx vy instr =
        .error .InvalidAccountData) ∧
    (∀ pid fata curve accounts supply vx vy instr cfg,
      Config.load pid accounts.config = .ok cfg →
      Deposit.stateGuardRejects cfg.state = true →
      Deposit.process pid fata curve accounts supply vx vy instr =
        .error .InvalidAccountData) ∧
    (∀ (C : Type) pid fata cpi cps accounts vx vy instr cfg,
      Config.load pid accounts.config = .ok cfg →
      Swap.stateGuardRejects cfg.state = true →
      Swap.process (C := C) pid fata cpi cps accounts vx vy instr =
        .error .InvalidAccountData) := by
  refine ⟨?_, ?_, ?_, ?_⟩
  · intro s
    refine ⟨?_, ?_, ?_, ?_⟩
    · simp [Withdraw.stateGuardRejects, AmmState.toU8]
    · simp [Deposit.stateGuardRejects, AmmState.toU8]
    · simp [Swap.stateGuardRejects, AmmState.toU8]
    · simp [Deposit.stateGuardRejects, Withdraw.stateGuardRejects,
        AmmState.toU8]
      omega
  · intro pid fata curve accounts supply vx vy instr cfg hload hguard
    simp [Withdraw.process, hload, hguard]
  · intro pid fata curve accounts supply vx vy instr cfg hload hguard
    simp [Deposit.process, hload, hguard]
  · intro C pid fata cpi cps accounts vx vy instr cfg hload hguard
    simp [Swap.process, hload, hguard]

/-- Witness for C7: with the all-zero `Disabled` config account, each of
the three handlers fails with `InvalidAccountData` at the state guard. -/
theorem C7_witness :
    Withdraw.process ammProgId fataConst curveFail withdrawAccountsDisabled
      0 0 0 withdrawInstrA = .error .InvalidAccountData ∧
    Deposit.process ammProgId fataConst curveFail depositAccountsDisabled
      0 0 0 depositInstrA = .error .InvalidAccountData ∧
    Swap.process (C := Unit) ammProgId fataConst
      (fun _ _ _ _ _ => .ok ()) (fun _ _ _ _ => .error ())
      swapAccountsDisabled 0 0 ⟨1, 1, 1, 50⟩ = .error .InvalidAccountData :=
  ⟨C7_state_guards.2.1 ammProgId fataConst curveFail withdrawAccountsDisabled
      0 0 0 withdrawInstrA (Config.from_bytes configBytesDisabled)
      (by decide) (by decide),
   C7_state_guards.2.2.1 ammProgId fataConst curveFail
      depositAccountsDisabled 0 0 0 depositInstrA
      (Config.from_bytes configBytesDisabled) (by decide) (by decide),
   C7_state_guards.2.2.2 Unit ammProgId fataConst
      (fun _ _ _ _ _ => .ok ()) (fun _ _ _ _ => .error ())
      swapAccountsDisabled 0 0 ⟨1, 1, 1, 50⟩
      (Config.from_bytes configBytesDisabled) (by decide) (by decide)⟩

/-- Account lists shorter than nine entries make `DepositAccounts::try_from`
fail with `NotEnoughAccountKeys`. -/
theorem depTryFromShort : ∀ l : List AccountInfo, l.length < 9 →
    DepositAccounts.try_from l = .error .NotEnoughAccountKeys := by
  intro l h
  rcases l with _ | ⟨a1, _ | ⟨a2, _ | ⟨a3, _ | ⟨a4, _ | ⟨a5, _ | ⟨a6,
    _ | ⟨a7, _ | ⟨a8, _ | ⟨a9, t⟩⟩⟩⟩⟩⟩⟩⟩⟩ <;>
    first
      | rfl
      | (exfalso; simp only [List.length_cons] at h; omega)

/-- Account lists shorter than nine entries make
`WithdrawAccounts::try_from` fail with `NotEnoughAccountKeys`. -/
theorem wdTryFromShort : ∀ l : List AccountInfo, l.length < 9 →
    WithdrawAccounts.try_from l = .error .NotEnoughAccountKeys := by
  intro l h
  rcases l with _ | ⟨a1, _ | ⟨a2, _ | ⟨a3, _ | ⟨a4, _ | ⟨a5, _ | ⟨a6,
    _ | ⟨a7, _ | ⟨a8, _ | ⟨a9, t⟩⟩⟩⟩⟩⟩⟩⟩⟩ <;>
    first
      | rfl
      | (exfalso; simp only [List.length_cons] at h; omega)

/-- Account lists shorter than seven entries make `SwapAccounts::try_from`
fail with `NotEnoughAccountKeys`. -/
theorem swapTryFromShort : ∀ l : List AccountInfo, l.length < 7 →
    SwapAccounts.try_from l = .error .NotEnoughAccountKeys := by
  intro l h
  rcases l with _ | ⟨a1, _ | ⟨a2, _ | ⟨a3, _ | ⟨a4, _ | ⟨a5, _ | ⟨a6,
    _ | ⟨a7, t⟩⟩⟩⟩⟩⟩⟩ <;>
    first
      | rfl
      | (exfalso; simp only [List.length_cons] at h; omega)

/-- Account lists shorter than five entries make
`InitializeAccounts::try_from` fail with `NotEnoughAccountKeys`. -/
theorem initTryFromShort : ∀ l : List AccountInfo, l.length < 5 →
    InitializeAccounts.try_from l = .error .NotEnoughAccountKeys := by
  intro l h
  rcases l with _ | ⟨a1, _ | ⟨a2, _ | ⟨a3, _ | ⟨a4, _ | ⟨a5, t⟩⟩⟩⟩⟩ <;>
    first
      | rfl
      | (exfalso; simp only [List.length_cons] at h; omega)

/-- Model of `RefundAccounts::try_from` returns `NotEnoughAccountKeys` on every
account list whose length is not exactly eight. -/
theorem refundTryFromArity : ∀ (token_id program_id : Pubkey)
    (find_ata : Pubkey → Pubkey → Pubkey → Pubkey) (l : List AccountInfo),
    l.length ≠ 8 →
    RefundAccounts.try_from token_id program_id find_ata l =
      .error .NotEnoughAccountKeys := by
  intro token_id program_id find_ata l h
  rcases l with _ | ⟨a1, _ | ⟨a2, _ | ⟨a3, _ | ⟨a4, _ | ⟨a5, _ | ⟨a6,
    _ | ⟨a7, _ | ⟨a8, _ | ⟨a9, t⟩⟩⟩⟩⟩⟩⟩⟩⟩ <;>
    first
      | rfl
      | (exfalso; simp only [List.length_cons, List.length_nil] at h; omega)

/-- Claim C3 (amended): Too-short account lists fail with
`NotEnoughAccountKeys` for every handler, but only `Refund` enforces an
exact length: its pattern matches exactly eight accounts (the seven
declared plus one ignored trailing entry), so both shorter and longer
lists — including the declared seven — fail, whereas the four AMM handlers
(`Deposit`/`Withdraw` arity 9, `Swap` 7, `Initialize` 5) accept any list
at least as long as their arity, binding the leading accounts and ignoring
the rest. -/
theorem C3_amended_arity :
    (∀ l : List AccountInfo,
      (l.length < 9 →
        DepositAccounts.try_from l = .error .NotEnoughAccountKeys) ∧
      (l.length < 9 →
        WithdrawAccounts.try_from l = .error .NotEnoughAccountKeys) ∧
      (l.length < 7 →
        SwapAccounts.try_from l = .error .NotEnoughAccountKeys) ∧
      (l.length < 5 →
        InitializeAccounts.try_from l = .error .NotEnoughAccountKeys) ∧
      (∀ token_id program_id find_ata, l.length ≠ 8 →
        RefundAccounts.try_from token_id program_id find_ata l =
          .error .NotEnoughAccountKeys)) ∧
    (∀ a1 a2 a3 a4 a5 a6 a7 a8 a9 rest,
      DepositAccounts.try_from
          (a1 :: a2 :: a3 :: a4 :: a5 :: a6 :: a7 :: a8 :: a9 :: rest) =
        .ok ⟨a1, a2, a3, a4, a5, a6, a7, a8, a9⟩ ∧
      WithdrawAccounts.try_from
          (a1 :: a2 :: a3 :: a4 :: a5 :: a6 :: a7 :: a8 :: a9 :: rest) =
        .ok ⟨a1, a2, a3, a4, a5, a6, a7, a8, a9⟩) ∧
    (∀ a1 a2 a3 a4 a5 a6 a7 rest,
      SwapAccounts.try_from (a1 :: a2 :: a3 :: a4 :: a5 :: a6 :: a7 :: rest) =
        .ok ⟨a1, a2, a3, a4, a5, a6, a7⟩) ∧
    (∀ a1 a2 a3 a4 a5 rest,
      InitializeAccounts.try_from (a1 :: a2 :: a3 :: a4 :: a5 :: rest) =
        .ok ⟨a1, a2, a3, a4, a5⟩) ∧
    RefundAccounts.try_from tokenProgId escrowProgId fataConst refundList8 =
      .ok refundAccountsA := by
  refine ⟨?_, ?_, ?_, ?_, by decide⟩
  · intro l
    exact ⟨depTryFromShort l, wdTryFromShort l, swapTryFromShort l,
      initTryFromShort l,
      fun token_id program_id find_ata h =>
        refundTryFromArity token_id program_id find_ata l h⟩
  · intro a1 a2 a3 a4 a5 a6 a7 a8 a9 rest
    exact ⟨rfl, rfl⟩
  · intro a1 a2 a3 a4 a5 a6 a7 rest
    exact rfl
  · intro a1 a2 a3 a4 a5 rest
    exact rfl

/-- Counterexample to C3 as stated: a ten-account list — the wrong length
for `Deposit`'s declared arity of nine — parses successfully instead of
failing with `NotEnoughAccountKeys`. -/
theorem C3_counterexample :
    DepositAccounts.try_from tenAccounts =
      .ok ⟨dummyAccount 0, dummyAccount 1, dummyAccount 2, dummyAccount 3,
           dummyAccount 4, dummyAccount 5, dummyAccount 6, dummyAccount 7,
           dummyAccount 8⟩ ∧
    DepositAccounts.try_from tenAccounts ≠ .error .NotEnoughAccountKeys := by
  decide

/-- Witness for C3 (amended): the empty list fails `Deposit` parsing, and a
seven-account list — `Refund`'s declared arity — fails `Refund` parsing
with `NotEnoughAccountKeys`. -/
theorem C3_witness :
    DepositAccounts.try_from [] = .error .NotEnoughAccountKeys ∧
    RefundAccounts.try_from tokenProgId escrowProgId fataConst
      (List.replicate 7 (dummyAccount 0)) = .error .NotEnoughAccountKeys :=
  ⟨(C3_amended_arity.1 []).1 (by decide),
   (C3_amended_arity.1 (List.replicate 7 (dummyAccount 0))).2.2.2.2
     tokenProgId escrowProgId fataConst (by decide)⟩

/-- Claim C4: For each of the three AMM payload parsers, a correctly sized
payload whose decoded `expiration` field is below the ledger's current
unix time fails with `InvalidInstructionData`, no matter what the amount
fields hold; in particular, with a positive current time, a payload whose
`expiration` field decodes to `0` is always rejected. -/
theorem C4_expired_payload_rejected : ∀ (now : Int) (d w s : List Nat),
    (d.length = 32 → now > i64FromLeBytes ((d.drop 24).take 8) →
      DepositInstructionData.try_from now d = .error .InvalidInstructionData) ∧
    (w.length = 32 → now > i64FromLeBytes ((w.drop 24).take 8) →
      WithdrawInstructionData.try_from now w = .error .InvalidInstructionData) ∧
    (s.length = 25 → now > i64FromLeBytes ((s.drop 17).take 8) →
      SwapInstructionData.try_from now s = .error .InvalidInstructionData) ∧
    (0 < now →
      (d.length = 32 → i64FromLeBytes ((d.drop 24).take 8) = 0 →
        DepositInstructionData.try_from now d = .error .InvalidInstructionData) ∧
      (w.length = 32 → i64FromLeBytes ((w.drop 24).take 8) = 0 →
        WithdrawInstructionData.try_from now w = .error .InvalidInstructionData) ∧
      (s.length = 25 → i64FromLeBytes ((s.drop 17).take 8) = 0 →
        SwapInstructionData.try_from now s = .error .InvalidInstructionData)) := by
  intro now d w s
  have hd : d.length = 32 → now > i64FromLeBytes ((d.drop 24).take 8) →
      DepositInstructionData.try_from now d = .error .InvalidInstructionData := by
    intro hlen hexp
    unfold DepositInstructionData.try_from
    rw [if_neg (by simp [hlen])]
    split_ifs with h1 <;> rfl
  have hw : w.length = 32 → now > i64FromLeBytes ((w.drop 24).take 8) →
      WithdrawInstructionData.try_from now w = .error .InvalidInstructionData := by
    intro hlen hexp
    unfold WithdrawInstructionData.try_from
    rw [if_neg (by simp [hlen])]
    split_ifs with h1 <;> rfl
  have hs : s.length = 25 → now > i64FromLeBytes ((s.drop 17).take 8) →
      SwapInstructionData.try_from now s = .error .InvalidInstructionData := by
    intro hlen hexp
    unfold SwapInstructionData.try_from
    rw [if_neg (by simp [hlen])]
    split_ifs with h1 <;> rfl
  refine ⟨hd, hw, hs, ?_⟩
  intro hnow
  exact ⟨fun hlen hz => hd hlen (by omega),
         fun hlen hz => hw hlen (by omega),
         fun hlen hz => hs hlen (by omega)⟩

/-- Witness for C4: with current time `1`, the all-zero 32-byte deposit and
withdraw payloads and the all-zero 25-byte swap payload (each decoding
`expiration = 0`) are rejected with `InvalidInstructionData`. -/
theorem C4_witness :
    DepositInstructionData.try_from 1 (List.replicate 32 0) =
      .error .InvalidInstructionData ∧
    WithdrawInstructionData.try_from 1 (List.replicate 32 0) =
      .error .InvalidInstructionData ∧
    SwapInstructionData.try_from 1 (List.replicate 25 0) =
      .error .InvalidInstructionData :=
  ⟨(C4_expired_payload_rejected 1 (List.replicate 32 0) (List.replicate 32 0)
      (List.replicate 25 0)).1 (by decide) (by decide),
   (C4_expired_payload_rejected 1 (List.replicate 32 0) (List.replicate 32 0)
      (List.replicate 25 0)).2.1 (by decide) (by decide),
   (C4_expired_payload_rejected 1 (List.replicate 32 0) (List.replicate 32 0)
      (List.replicate 25 0)).2.2.1 (by decide) (by decide)⟩

/-- Claim C5: Bootstrap deposit: when the liquidity-share supply and both
vault balances are zero, a `Deposit` that passes the config load, state
guard and vault-derivation checks always succeeds — for every curve engine
(which is never consulted) and every payload — transferring exactly
`max_x` and `max_y` into the vaults and minting exactly the payload's
`amount` of shares; in particular the slippage check cannot fail. -/
theorem C5_deposit_bootstrap : ∀ pid fata curve accounts instr cfg,
    Config.load pid accounts.config = .ok cfg →
    cfg.state = AmmState.Initialized.toU8 →
    fata accounts.config.key accounts.token_program.key cfg.mint_x =
      accounts.vault_x.key →
    fata accounts.config.key accounts.token_program.key cfg.mint_y =
      accounts.vault_y.key →
    Deposit.process pid fata curve accounts 0 0 0 instr =
      .ok ⟨instr.max_x, instr.max_y, instr.amount⟩ := by
  intro pid fata curve accounts instr cfg hload hstate hvx hvy
  simp [Deposit.process, hload, Deposit.stateGuardRejects, hstate,
    AmmState.toU8, hvx, hvy]

/-- Witness for C5: the concrete bootstrap deposit transfers (100, 200)
and mints 5 shares. -/
theorem C5_witness :
    Deposit.process ammProgId fataConst curveFail depositAccountsA 0 0 0
      depositInstrA = .ok ⟨100, 200, 5⟩ :=
  C5_deposit_bootstrap ammProgId fataConst curveFail depositAccountsA
    depositInstrA (Config.from_bytes configBytesInit) (by decide) (by decide)
    (by decide) (by decide)

/-- Claim C6: Full exit: when the payload's `amount` equals the
liquidity-share supply, `Withdraw::process` never consults the curve
engine (its result is identical for any two engines), and any successful
run transfers exactly the full live vault balances and burns exactly the
payload's `amount`. -/
theorem C6_withdraw_full_exit :
    ∀ pid fata curve1 curve2 accounts supply vx vy instr,
    instr.amount = supply →
    (Withdraw.process pid fata curve1 accounts supply vx vy instr =
      Withdraw.process pid fata curve2 accounts supply vx vy instr) ∧
    (∀ r, Withdraw.process pid fata curve1 accounts supply vx vy instr =
        .ok r →
      r.transfer_x_amount = vx ∧ r.transfer_y_amount = vy ∧
      r.burn_amount = instr.amount) := by
  intro pid fata curve1 curve2 accounts supply vx vy instr h
  have hbeq : (supply == instr.amount) = true := by simp [h]
  constructor
  · cases hload : Config.load pid accounts.config with
    | error e => simp [Withdraw.process, hload]
    | ok cfg => simp [Withdraw.process, hload, hbeq]
  · intro r hr
    simp only [Withdraw.process] at hr
    cases hload : Config.load pid accounts.config with
    | error e => simp [hload] at hr
    | ok cfg =>
      simp only [hload, hbeq, if_true] at hr
      split_ifs at hr
      simp only [Except.ok.injEq] at hr
      subst hr
      exact ⟨rfl, rfl, rfl⟩

/-- Witness for C6: with supply 30 and payload amount 30, the result is the
same under a failing curve engine and an arbitrary one, and the successful
run returns exactly the vault balances (100, 200) and burns 30. -/
theorem C6_witness :
    (Withdraw.process ammProgId fataConst curveFail withdrawAccountsA 30 100
        200 withdrawInstrA =
      Withdraw.process ammProgId fataConst (fun _ _ _ _ _ => .ok (1, 1))
        withdrawAccountsA 30 100 200 withdrawInstrA) ∧
    ((⟨100, 200, 30⟩ : WithdrawEffects).transfer_x_amount = 100 ∧
     (⟨100, 200, 30⟩ : WithdrawEffects).transfer_y_amount = 200 ∧
     (⟨100, 200, 30⟩ : WithdrawEffects).burn_amount = withdrawInstrA.amount) :=
  ⟨(C6_withdraw_full_exit ammProgId fataConst curveFail
      (fun _ _ _ _ _ => .ok (1, 1)) withdrawAccountsA 30 100 200
      withdrawInstrA (by decide)).1,
   (C6_withdraw_full_exit ammProgId fataConst curveFail
      (fun _ _ _ _ _ => .ok (1, 1)) withdrawAccountsA 30 100 200
      withdrawInstrA (by decide)).2 ⟨100, 200, 30⟩ (by decide)⟩

/-- Claim C2: In `Refund::process`, once the stored record is loaded and the
runtime derivation returns an address: a derivation result different from
the escrow account's address fails with `InvalidAccountOwner` (the spec's
`InvalidOwner`) regardless of the stored maker, and a matching derivation
with a stored `maker` different from the signing maker's key fails with
`InvalidAccountData` — the derived-address check runs first. -/
theorem C2_refund_pda_before_maker : ∀ cpa sys accounts vault_amount esc key,
    EscrowState.load accounts.escrow.data = .ok esc →
    cpa accounts.maker.key (u64ToLeBytes esc.seed) [esc.bump] = .ok key →
    (key ≠ accounts.escrow.key →
      Refund.process cpa sys accounts vault_amount =
        .error .InvalidAccountOwner) ∧
    (key = accounts.escrow.key → accounts.maker.key ≠ esc.maker →
      Refund.process cpa sys accounts vault_amount =
        .error .InvalidAccountData) := by
  intro cpa sys accounts vault_amount esc key hload hcpa
  constructor
  · intro hne
    simp [Refund.process, hload, hcpa, hne]
  · intro heq hmk
    simp [Refund.process, hload, hcpa, heq, hmk]

/-- Witness for C2: with the all-zero stored record, a derivation returning
a wrong address yields `InvalidAccountOwner`, and a matching derivation
with a non-matching signing maker yields `InvalidAccountData`. -/
theorem C2_witness :
    Refund.process cpaBad sysProgId refundAccountsA 0 =
      .error .InvalidAccountOwner ∧
    Refund.process cpaOk sysProgId refundAccountsB 0 =
      .error .InvalidAccountData :=
  ⟨(C2_refund_pda_before_maker cpaBad sysProgId refundAccountsA 0
      ⟨0, List.replicate 32 0, List.replicate 32 0, List.replicate 32 0, 0, 0⟩
      [99] (by decide) (by decide)).1 (by decide),
   (C2_refund_pda_before_maker cpaOk sysProgId refundAccountsB 0
      ⟨0, List.replicate 32 0, List.replicate 32 0, List.replicate 32 0, 0, 0⟩
      escrowKeyA (by decide) (by decide)).2 (by decide) (by decide)⟩

/-- Claim C8: Every successful `Refund` transfers exactly the vault balance
read live at processing time, closes the vault, leaves every byte of the
escrow account's data zeroed (same length as before), zeroes the escrow's
lamports, and credits them in full to the maker. -/
theorem C8_refund_success_effects : ∀ cpa sys accounts vault_amount r,
    Refund.process cpa sys accounts vault_amount = .ok r →
    r.transfer_amount = vault_amount ∧
    r.vault_closed = true ∧
    (∀ b ∈ r.escrow_account.data, b = 0) ∧
    r.escrow_account.data.length = accounts.escrow.data.length ∧
    r.escrow_account.lamports = 0 ∧
    r.maker_account.lamports =
      accounts.maker.lamports + accounts.escrow.lamports := by
  intro cpa sys accounts vault_amount r hr
  simp only [Refund.process] at hr
  cases hload : EscrowState.load accounts.escrow.data with
  | error e => simp [hload] at hr
  | ok esc =>
    simp only [hload] at hr
    cases hcpa : cpa accounts.maker.key (u64ToLeBytes esc.seed) [esc.bump] with
    | error e => simp [hcpa] at hr
    | ok key =>
      simp only [hcpa] at hr
      split_ifs at hr
      simp only [Except.ok.injEq] at hr
      subst hr
      refine ⟨rfl, rfl, ?_, ?_, rfl, ?_⟩
      · intro b hb
        simp only [ProgramAccount.close] at hb
        rcases List.mem_map.mp hb with ⟨a, _, rfl⟩
        rfl
      · simp [ProgramAccount.close]
      · simp [ProgramAccount.close]

/-- Witness for C8: the concrete successful refund with vault balance 42:
transfer 42, vault closed, escrow data zeroed at its original length,
escrow lamports 0, maker credited 7 + 10. -/
theorem C8_witness :
    (⟨42, true,
      { key := escrowKeyA, is_signer := false, owner := sysProgId,
        lamports := 0, data := List.replicate 113 0 },
      { key := makerKey, is_signer := true, owner := [], lamports := 17,
        data := [] }⟩ : RefundEffects).transfer_amount = 42 ∧
    (∀ b ∈ (List.replicate 113 0 : List Nat), b = 0) ∧
    (17 : Nat) = refundAccountsA.maker.lamports +
      refundAccountsA.escrow.lamports := by
  have h := C8_refund_success_effects cpaOk sysProgId refundAccountsA 42
    ⟨42, true,
      { key := escrowKeyA, is_signer := false, owner := sysProgId,
        lamports := 0, data := List.replicate 113 0 },
      { key := makerKey, is_signer := true, owner := [], lamports := 17,
        data := [] }⟩ (by decide)
  exact ⟨h.1, h.2.2.1, by decide⟩

/-- Claim C10: `SwapInstructionData::try_from` rejects a correctly sized
payload with `InvalidInstructionData` whenever the decoded `min` field is
zero, exactly as it does when the decoded `amount` field is zero, so no
swap can be submitted without a positive output floor. -/
theorem C10_swap_min_zero_rejected : ∀ (now : Int) (s : List Nat),
    (s.length = 25 → fromLeBytes ((s.drop 9).take 8) = 0 →
      SwapInstructionData.try_from now s = .error .InvalidInstructionData) ∧
    (s.length = 25 → fromLeBytes ((s.drop 1).take 8) = 0 →
      SwapInstructionData.try_from now s = .error .InvalidInstructionData) := by
  intro now s
  constructor
  · intro hlen hmin
    unfold SwapInstructionData.try_from
    rw [if_neg (by simp [hlen]), if_pos (Or.inr hmin)]
  · intro hlen hamt
    unfold SwapInstructionData.try_from
    rw [if_neg (by simp [hlen]), if_pos (Or.inl hamt)]

/-- Witness for C10: a 25-byte swap payload with `amount = 1`, `min = 0`
and a far-future expiration is rejected; so is one with `amount = 0`. -/
theorem C10_witness :
    SwapInstructionData.try_from 1
      ([0, 1] ++ List.replicate 15 0 ++ List.replicate 8 255) =
      .error .InvalidInstructionData ∧
    SwapInstructionData.try_from 1
      (List.replicate 17 0 ++ List.replicate 8 255) =
      .error .InvalidInstructionData :=
  ⟨(C10_swap_min_zero_rejected 1
      ([0, 1] ++ List.replicate 15 0 ++ List.replicate 8 255)).1
      (by decide) (by decide),
   (C10_swap_min_zero_rejected 1
      (List.replicate 17 0 ++ List.replicate 8 255)).2
      (by decide) (by decide)⟩
